import Mathlib

/-!
Shallow embedding of the Instance Lifecycle Manager
(`app/session_manager.py` and the monitor loop of `server.py`).

Conventions of the embedding:
* OS paths are plain strings; `os.path.join` is modelled with a `/`
  separator and `os.path.abspath` as the identity (all paths fed to the
  model are already absolute and normalised).
* The OS process table is a `List ProcInfo`; the optional `psutil`
  capability is `Option (List ProcInfo)` (`none` = psutil missing).
* The sqlite `accounts` table is a map `String → Option AccountRow`.
* Graceful termination is modelled by a predicate `honors : Nat → Bool`
  saying which pids die on `terminate()`; `kill()` always removes.
* Exceptions of fallible steps (rmtree, BAT creation, Popen) are
  modelled by boolean fields of an environment record, and a fallible
  per-account liveness check is `Except String Bool`.
-/

/-- One row of `psutil.process_iter(["pid", "name", "exe", "cwd"])`. -/
structure ProcInfo where
  pid : Nat
  name : String
  exe : String
  cwd : String
deriving DecidableEq

/-- ASCII lower-casing of one character, as `str.lower()` acts on the
ASCII process names the code compares against. -/
def lowerChar (c : Char) : Char :=
  if 65 ≤ c.toNat ∧ c.toNat ≤ 90 then Char.ofNat (c.toNat + 32) else c

/-- `s.lower()` for the ASCII strings handled by the code. -/
def lowerStr (s : String) : String :=
  ⟨s.data.map lowerChar⟩

/-- `sub` occurs as a contiguous run inside `l`. -/
def listInfixOf (sub : List Char) : List Char → Bool
  | [] => sub.isEmpty
  | a :: t => sub.isPrefixOf (a :: t) || listInfixOf sub t

/-- Python `sub in s` on strings: substring containment. -/
def strContains (s sub : String) : Bool :=
  listInfixOf sub.data s.data

/-- `p` is a prefix of `s` (exact, character-wise). -/
def strIsPre (p s : String) : Bool :=
  p.data.isPrefixOf s.data

/-- `os.path.join` with the model's path separator. -/
def joinPath (a b : String) : String := a ++ "/" ++ b

/-- The binary names accepted by `_find_mt5_pid_for_account` and
`_iter_instance_procs`. -/
def mt5Names : List String := ["terminal64.exe", "terminal.exe"]

/-- The binary names targeted by `_close_all_mt5_processes`. -/
def closeNames : List String :=
  ["terminal64.exe", "terminal.exe", "metatester64.exe", "metaeditor64.exe"]

/-- `get_instance_path`: `<instances_dir>/<account>`. -/
def get_instance_path (instancesDir account : String) : String :=
  joinPath instancesDir account

/-- The process filter used by `_find_mt5_pid_for_account` and
`_iter_instance_procs`: expected binary name, and the instance path
contained *as a raw substring* (`instance_path in os.path.abspath(exe)
or instance_path in os.path.abspath(cwd)`). -/
def procMatchesCode (inst : String) (p : ProcInfo) : Bool :=
  decide (lowerStr p.name ∈ mt5Names) &&
    (strContains p.exe inst || strContains p.cwd inst)

/-- Modelled from the spec: phase-2 matching as §4.4 words it — expected
binary name, and the instance directory as an exact path-prefix followed
by a path separator of the executable path or the working directory (the
source instead uses raw substring containment, `procMatchesCode`). -/
def procMatchesSpec (inst : String) (p : ProcInfo) : Bool :=
  decide (lowerStr p.name ∈ mt5Names) &&
    (strIsPre (inst ++ "/") p.exe || strIsPre (inst ++ "/") p.cwd)

/-- The optional process-table capability: `some table` when psutil is
importable, `none` when it is not. -/
def psCap (avail : Bool) (procs : List ProcInfo) : Option (List ProcInfo) :=
  if avail then some procs else none

/-- `_find_mt5_pid_for_account`: `None` without psutil, otherwise the
pid of the first process-table entry passing `procMatchesCode`. -/
def findMT5PidForAccount (ps : Option (List ProcInfo)) (inst : String) :
    Option Nat :=
  match ps with
  | none => none
  | some procs => (procs.find? (procMatchesCode inst)).map ProcInfo.pid

/-- `_iter_instance_procs`: yields nothing without psutil, otherwise all
process-table entries passing `procMatchesCode`. -/
def iterInstanceProcs (ps : Option (List ProcInfo)) (inst : String) :
    List ProcInfo :=
  match ps with
  | none => []
  | some procs => procs.filter (procMatchesCode inst)

/-- One row of the sqlite `accounts` table
(`account TEXT PRIMARY KEY, nickname, status, pid, created`). -/
structure AccountRow where
  nickname : String
  status : String
  pid : Option Nat
  created : String
deriving DecidableEq

/-- The `accounts` table, keyed by the primary key `account`. -/
abbrev DB : Type := String → Option AccountRow

/-- The row produced by `UPDATE accounts SET ...`: with a pid the
statement sets both columns, without one it sets only `status`
(the `pid` column is left untouched, not cleared). -/
def applyStatus (r : AccountRow) (status : String) (pid : Option Nat) :
    AccountRow :=
  match pid with
  | some p => { r with status := status, pid := some p }
  | none => { r with status := status }

/-- `update_account_status`: updates the row of `account` when present
(an UPDATE against a missing row is a no-op). -/
def update_account_status (db : DB) (account status : String)
    (pid : Option Nat) : DB :=
  fun a =>
    if a = account then (db a).map (fun r => applyStatus r status pid)
    else db a

/-- The `INSERT OR REPLACE ... COALESCE((SELECT ...), default)` upsert of
`create_instance`: a fresh row gets status `Offline`, pid NULL and the
supplied timestamp; an existing row keeps its status, pid and created
values and only the nickname is replaced. -/
def upsertAccount (db : DB) (account nickname now : String) : DB :=
  fun a =>
    if a = account then
      some (match db account with
        | some r => { r with nickname := nickname }
        | none => ⟨nickname, "Offline", none, now⟩)
    else db a

/-- `is_instance_alive`: reads the row's pid; with psutil present it
returns true when that pid is truthy and currently in the process table
(`psutil.Process(pid).is_running()` — no executable-name check), or when
the `_iter_instance_procs` scan yields anything; without psutil it
returns false. -/
def is_instance_alive (ps : Option (List ProcInfo)) (db : DB)
    (instancesDir account : String) : Bool :=
  match ps with
  | none => false
  | some procs =>
    let pidOpt := (db account).bind AccountRow.pid
    let byPid :=
      match pidOpt with
      | some p => (p != 0) && procs.any (fun q => q.pid == p)
      | none => false
    byPid ||
      !(iterInstanceProcs (some procs)
          (get_instance_path instancesDir account)).isEmpty

/-- One pass of `proc.terminate()` over the processes selected by
`targets`: exactly the selected processes whose pid honors the graceful
signal disappear. -/
def terminateStep (procs : List ProcInfo) (targets : ProcInfo → Bool)
    (honors : Nat → Bool) : List ProcInfo :=
  procs.filter (fun p => !(targets p && honors p.pid))

/-- One pass of `proc.kill()` over the processes selected by `targets`:
every selected process disappears. -/
def killStep (procs : List ProcInfo) (targets : ProcInfo → Bool) :
    List ProcInfo :=
  procs.filter (fun p => !targets p)

/-- `_close_all_mt5_processes`: without psutil a no-op; with it,
terminate every process whose name is in `closeNames` (whatever path it
runs under), wait, then kill the survivors. -/
def closeAllMT5 (avail : Bool) (honors : Nat → Bool)
    (procs : List ProcInfo) : List ProcInfo :=
  if avail then
    killStep (terminateStep procs (fun p => decide (lowerStr p.name ∈ closeNames)) honors)
      (fun p => decide (lowerStr p.name ∈ closeNames))
  else procs

/-- Result of `stop_instance`: returned boolean, table state, process
table state. -/
structure StopResult where
  ok : Bool
  db : DB
  procs : List ProcInfo

/-- `stop_instance`: without psutil, log and return False; otherwise
terminate every process yielded by `_iter_instance_procs`, wait the
2-second grace interval, kill every process the scan still yields, then
`update_account_status(account, "Offline", None)`. -/
def stop_instance (avail : Bool) (honors : Nat → Bool) (db : DB)
    (procs : List ProcInfo) (instancesDir account : String) : StopResult :=
  if avail then
    let inst := get_instance_path instancesDir account
    let procs1 := terminateStep procs (procMatchesCode inst) honors
    let procs2 := killStep procs1 (procMatchesCode inst)
    ⟨true, update_account_status db account "Offline" none, procs2⟩
  else ⟨false, db, procs⟩

/-- The set of directories existing on disk, as a characteristic
function (only directories matter to the claims; files are abstracted
into the environment record). -/
abbrev FS : Type := String → Bool

/-- `os.makedirs(d, exist_ok=True)`: afterwards the directory exists;
creating an existing directory changes nothing. -/
def makedirs (fs : FS) (d : String) : FS :=
  fun x => if x = d then true else fs x

/-- `shutil.rmtree(p)`: removes the directory and everything below it. -/
def removeTree (fs : FS) (p : String) : FS :=
  fun x => if decide (x = p) || strIsPre (p ++ "/") x then false else fs x

/-- The directory list created by `_create_portable_data_structure`. -/
def portableDirs (instancePath : String) : List String :=
  let dataPath := joinPath instancePath "Data"
  [dataPath,
   joinPath dataPath "MQL5",
   joinPath (joinPath dataPath "MQL5") "Files",
   joinPath (joinPath dataPath "MQL5") "Include",
   joinPath (joinPath dataPath "MQL5") "Experts",
   joinPath (joinPath dataPath "MQL5") "Indicators",
   joinPath (joinPath dataPath "MQL5") "Scripts",
   joinPath dataPath "config",
   joinPath dataPath "profiles",
   joinPath dataPath "bases",
   joinPath dataPath "logs"]

/-- `_create_portable_data_structure`: `os.makedirs(..., exist_ok=True)`
over `portableDirs`, in order. -/
def createPortableDataStructure (fs : FS) (instancePath : String) : FS :=
  (portableDirs instancePath).foldl makedirs fs

/-- The subdirectories the spec requires after creation: configuration,
user profiles, the MQL5 file-exchange area, and logs. -/
def requiredDataDirs (instancePath : String) : List String :=
  [joinPath (joinPath instancePath "Data") "config",
   joinPath (joinPath instancePath "Data") "profiles",
   joinPath (joinPath (joinPath instancePath "Data") "MQL5") "Files",
   joinPath (joinPath instancePath "Data") "logs"]

/-- `_copy_user_profile_to_instance`: when a template source resolved,
merge each of its present subdirectories (config, profiles, MQL5, bases)
into both the instance root and the Data subtree; absent template is a
logged no-op. -/
def copyUserProfile (fs : FS) (template : Option (List String))
    (instancePath : String) : FS :=
  match template with
  | none => fs
  | some items =>
    items.foldl
      (fun a d =>
        makedirs (makedirs a (joinPath instancePath d))
          (joinPath (joinPath instancePath "Data") d))
      fs

/-- Environment of one lifecycle call: the psutil capability, which pids
honor a graceful terminate, and the outcome of each fallible OS step.
`spawned` is the set of process-table entries that have appeared by the
end of the 2-second settling wait after a spawn; `procPid` is the pid
`subprocess.Popen` reports for the spawned launcher itself. -/
structure Env where
  avail : Bool
  honors : Nat → Bool
  programPathExists : Bool
  rmtreeOk : Bool
  batCreateOk : Bool
  spawnOk : Bool
  spawned : List ProcInfo
  batExists : Bool
  exeExists : Bool
  procPid : Nat
  template : Option (List String)

/-- Combined manager state: registry, OS process table, filesystem. -/
structure SMState where
  db : DB
  procs : List ProcInfo
  fs : FS

/-- Result of `launch_bat_file`. -/
structure LaunchResult where
  ok : Bool
  db : DB
  procs : List ProcInfo

/-- `launch_bat_file`: fails when the BAT file is missing or the spawn
raises; otherwise the spawn is issued, the code sleeps 2 seconds, and
`_find_mt5_pid_for_account` runs over the settled table: a truthy pid is
recorded with status `Online`; otherwise status becomes `Starting` and
the launch is still reported as success. -/
def launch_bat_file (env : Env) (db : DB) (procs : List ProcInfo)
    (batOnDisk : Bool) (instancesDir account : String) : LaunchResult :=
  if batOnDisk then
    if env.spawnOk then
      let procsAfter := procs ++ env.spawned
      let pidOpt :=
        findMT5PidForAccount (psCap env.avail procsAfter)
          (get_instance_path instancesDir account)
      match pidOpt with
      | some p =>
        if p ≠ 0 then
          ⟨true, update_account_status db account "Online" (some p), procsAfter⟩
        else
          ⟨true, update_account_status db account "Starting" none, procsAfter⟩
      | none =>
        ⟨true, update_account_status db account "Starting" none, procsAfter⟩
    else ⟨false, db, procs⟩
  else ⟨false, db, procs⟩

/-- `create_instance`: close every MT5 process, check the program
folder, wipe any stale instance directory (failure to wipe is fatal),
copy the installation (never fatal past this point), merge the template,
synthesize the portable data skeleton, upsert the registry row, create
the BAT launcher (failure fatal), then auto-launch — a launch failure is
only logged and creation still returns success. -/
def create_instance (env : Env) (st : SMState)
    (instancesDir account nickname now : String) : Bool × SMState :=
  let procs1 := closeAllMT5 env.avail env.honors st.procs
  if env.programPathExists then
    let inst := get_instance_path instancesDir account
    if st.fs inst = true ∧ ¬ env.rmtreeOk then
      (false, { st with procs := procs1 })
    else
      let fs1 := makedirs (removeTree st.fs inst) instancesDir
      let fs2 := makedirs fs1 inst
      let fs3 := copyUserProfile fs2 env.template inst
      let fs4 := createPortableDataStructure fs3 inst
      let db1 := upsertAccount st.db account nickname now
      if env.batCreateOk then
        let lr := launch_bat_file env db1 procs1 true instancesDir account
        (true, ⟨lr.db, lr.procs, fs4⟩)
      else (false, ⟨db1, procs1, fs4⟩)
  else (false, { st with procs := procs1 })

/-- `start_instance`: no-op success when already alive; failure when the
instance directory is missing; the BAT path delegates to
`launch_bat_file`; the direct-execution fallback needs an executable,
spawns it, waits, and then records `Online` with
`_find_mt5_pid_for_account(...) or proc.pid` — even when the matcher
resolved nothing. -/
def start_instance (env : Env) (st : SMState)
    (instancesDir account : String) : Bool × SMState :=
  if is_instance_alive (psCap env.avail st.procs) st.db instancesDir account then
    (true, st)
  else
    let inst := get_instance_path instancesDir account
    if st.fs inst = true then
      if env.batExists then
        let lr := launch_bat_file env st.db st.procs true instancesDir account
        (lr.ok, ⟨lr.db, lr.procs, st.fs⟩)
      else if env.exeExists then
        if env.spawnOk then
          let fsD := makedirs st.fs (joinPath inst "Data")
          let procsAfter := st.procs ++ env.spawned
          let pidOpt :=
            findMT5PidForAccount (psCap env.avail procsAfter) inst
          let pid :=
            match pidOpt with
            | some p => if p ≠ 0 then p else env.procPid
            | none => env.procPid
          (true,
            ⟨update_account_status st.db account "Online" (some pid),
             procsAfter, fsD⟩)
        else (false, st)
      else (false, st)
    else (false, st)

/-- One cycle of `monitor_instances` in `server.py`, over the snapshot
of `(account, status)` rows fetched at the cycle's start. The fallible
per-account liveness check is `aliveE` (an exception is `Except.error`).
The single `try` of the source wraps the whole `for` loop, so the first
error stops the remaining accounts of the cycle; email side effects are
not modelled. Returns the table state and the caught error, if any. -/
def monitorCycleAux (aliveE : String → Except String Bool)
    (snap : List (String × String)) (db : DB) : DB × Option String :=
  match snap with
  | [] => (db, none)
  | (a, old) :: rest =>
    match aliveE a with
    | Except.error e => (db, some e)
    | Except.ok b =>
      let newStatus := if b then "Online" else "Offline"
      let db1 :=
        if newStatus ≠ old then update_account_status db a newStatus none
        else db
      monitorCycleAux aliveE rest db1

/-- The body of the `while True` monitor loop: any error of the cycle is
caught and logged, and the loop proceeds with whatever the cycle had
committed so far. -/
def monitor_body (aliveE : String → Except String Bool)
    (snap : List (String × String)) (db : DB) : DB :=
  (monitorCycleAux aliveE snap db).1

/-! Concrete inputs for the counterexamples and witnesses. -/

/-- Instance path of account `1001` under the instances root. -/
def instC1 : String := "/root/mt5_instances/1001"

/-- A process of the sibling account `10010`. -/
def procSib : ProcInfo :=
  ⟨20, "terminal64.exe", "/root/mt5_instances/10010/terminal64.exe",
   "/root/mt5_instances/10010"⟩

/-- A process of account `1001` itself. -/
def procOwn : ProcInfo :=
  ⟨10, "terminal64.exe", "/root/mt5_instances/1001/terminal64.exe",
   "/root/mt5_instances/1001"⟩

/-- Registry with account `7` whose last-known pid 99 has been reused. -/
def dbC2 : DB :=
  fun a => if a = "7" then some ⟨"nick", "Online", some 99, "t0"⟩ else none

/-- Process table where pid 99 now belongs to an unrelated process. -/
def procsC2 : List ProcInfo :=
  [⟨99, "python.exe", "/usr/bin/python", "/home/user"⟩]

/-- Every pid honors a graceful terminate. -/
def honorsTrue : Nat → Bool := fun _ => true

/-- Registry with account `1` online at pid 5. -/
def dbC3 : DB :=
  fun a => if a = "1" then some ⟨"n", "Online", some 5, "t0"⟩ else none

/-- Process table with account `1`'s terminal at pid 5. -/
def procsC3 : List ProcInfo :=
  [⟨5, "terminal64.exe", "/r/1/terminal64.exe", "/r/1"⟩]

/-- A terminal process running under another account's directory. -/
def procC4 : ProcInfo :=
  ⟨5, "terminal64.exe", "/r/9999/terminal64.exe", "/r/9999"⟩

/-- Environment in which every step of `create_instance` succeeds. -/
def envC4 : Env :=
  { avail := true, honors := honorsTrue, programPathExists := true,
    rmtreeOk := true, batCreateOk := true, spawnOk := true, spawned := [],
    batExists := true, exeExists := true, procPid := 0, template := none }

/-- State holding only the other account's running terminal. -/
def stC4 : SMState := ⟨fun _ => none, [procC4], fun _ => false⟩

/-- Environment where provisioning succeeds but the spawn raises. -/
def envC5 : Env :=
  { avail := false, honors := honorsTrue, programPathExists := true,
    rmtreeOk := true, batCreateOk := true, spawnOk := false, spawned := [],
    batExists := true, exeExists := true, procPid := 0, template := none }

/-- State with account `9` already registered with status Online. -/
def stC5 : SMState :=
  ⟨fun a => if a = "9" then some ⟨"old", "Online", none, "t0"⟩ else none,
   [], fun _ => false⟩

/-- Environment for the direct-execution fallback: no BAT file, an
executable present, the spawn succeeds, nothing matchable appears. -/
def envC6 : Env :=
  { avail := true, honors := honorsTrue, programPathExists := true,
    rmtreeOk := true, batCreateOk := true, spawnOk := true, spawned := [],
    batExists := false, exeExists := true, procPid := 77, template := none }

/-- State with account `3` registered Offline and its directory on disk. -/
def stC6 : SMState :=
  ⟨fun a => if a = "3" then some ⟨"n", "Offline", none, "t0"⟩ else none,
   [], fun x => decide (x = "/r/3")⟩

/-- A liveness check that raises on account `A` and answers `false` for
every other account. -/
def aliveC7 : String → Except String Bool :=
  fun a => if a = "A" then Except.error "boom" else Except.ok false

/-- Registry for the monitor scenario: accounts `A` and `B`, both with
persisted status Online. -/
def dbC7 : DB :=
  fun a =>
    if a = "A" then some ⟨"na", "Online", none, "t0"⟩
    else if a = "B" then some ⟨"nb", "Online", none, "t0"⟩
    else none

/-- Environment where `create_instance` fully succeeds and the launch
settles with account `5`'s terminal at pid 7. -/
def envC8 : Env :=
  { avail := true, honors := honorsTrue, programPathExists := true,
    rmtreeOk := true, batCreateOk := true, spawnOk := true,
    spawned := [⟨7, "terminal64.exe", "/r/5/terminal64.exe", "/r/5"⟩],
    batExists := true, exeExists := true, procPid := 0, template := none }

/-- State with account `5` already registered (Offline, no pid). -/
def stC8 : SMState :=
  ⟨fun a => if a = "5" then some ⟨"old", "Offline", none, "t0"⟩ else none,
   [], fun _ => false⟩

/-- Environment without psutil and without a template, in which all
provisioning steps succeed. -/
def envC9 : Env :=
  { avail := false, honors := honorsTrue, programPathExists := true,
    rmtreeOk := true, batCreateOk := true, spawnOk := true, spawned := [],
    batExists := true, exeExists := true, procPid := 0, template := none }

/-- Completely empty initial state. -/
def stC9 : SMState := ⟨fun _ => none, [], fun _ => false⟩

/-! Helper lemmas. -/

theorem update_account_status_self (db : DB) (a s : String) (p : Option Nat) :
    update_account_status db a s p a = (db a).map (fun r => applyStatus r s p) := by
  simp [update_account_status]

theorem upsertAccount_self (db : DB) (a n t : String) :
    upsertAccount db a n t a =
      some (match db a with
        | some r => { r with nickname := n }
        | none => ⟨n, "Offline", none, t⟩) := by
  simp [upsertAccount]

theorem applyStatus_created (r : AccountRow) (s : String) (p : Option Nat) :
    (applyStatus r s p).created = r.created := by
  cases p <;> rfl

theorem filter_not_filter {α : Type} (q : α → Bool) (l : List α) :
    (l.filter (fun x => !q x)).filter q = [] := by
  induction l with
  | nil => rfl
  | cons a t ih =>
    by_cases h : q a = true <;> simp [List.filter_cons, h, ih]

theorem foldl_makedirs_apply (ds : List String) (fs : FS) (x : String) :
    (ds.foldl makedirs fs) x = (decide (x ∈ ds) || fs x) := by
  induction ds generalizing fs with
  | nil => simp
  | cons e t ih =>
    show (t.foldl makedirs (makedirs fs e)) x = _
    rw [ih]
    by_cases hx : x = e <;> simp [makedirs, hx, List.mem_cons]

theorem mem_foldl_makedirs (ds : List String) (fs : FS) (d : String)
    (h : d ∈ ds) : (ds.foldl makedirs fs) d = true := by
  rw [foldl_makedirs_apply]
  simp [h]

/-! Claims. -/

/-- Claim C1 (code bug): `_find_mt5_pid_for_account` tests the instance
path by raw substring containment, so resolving account `1001` against a
process table holding only the sibling account `10010`'s terminal
returns that sibling's pid (20), although the spec's exact
prefix-plus-separator rule (`procMatchesSpec`) rejects that process and
accepts only `1001`'s own. -/
theorem c1_substring_false_positive :
    findMT5PidForAccount (some [procSib, procOwn]) instC1 = some 20 ∧
    procMatchesSpec instC1 procSib = false ∧
    procMatchesSpec instC1 procOwn = true ∧
    procMatchesCode instC1 procSib = true := by
  refine ⟨?_, ?_, ?_, ?_⟩ <;> decide

/-- Claim C10: with the process-table capability absent, process
resolution returns `none`, the instance scan yields nothing, and the
liveness check returns `false` — all deterministically, never raising. -/
theorem c10_no_psutil_degrades :
    ∀ (inst : String) (db : DB) (dir a : String),
      findMT5PidForAccount none inst = none ∧
      iterInstanceProcs none inst = [] ∧
      is_instance_alive none db dir a = false := by
  intro inst db dir a
  exact ⟨rfl, rfl, rfl⟩

/-- Claim C2 counterexample: account `7`'s last-known pid 99 was reused
by an unrelated `python.exe`; `is_instance_alive` accepts the pid without
any executable-name check and returns true, although resolution finds
nothing and no process runs under the instance path. -/
theorem c2_pid_reuse_counterexample :
    is_instance_alive (some procsC2) dbC2 "/r" "7" = true ∧
    findMT5PidForAccount (some procsC2) (get_instance_path "/r" "7") = none ∧
    iterInstanceProcs (some procsC2) (get_instance_path "/r" "7") = [] := by
  refine ⟨?_, ?_, ?_⟩ <;> decide

/-- Claim C2 (amended): with the capability present, `is_instance_alive`
returns true exactly when the registry's last-known pid is nonzero and
present in the process table — with no check of that process's
executable name — or when the instance scan yields a process; so a
reused pid makes the account count as alive with no resolvable process
under its instance path. -/
theorem c2_alive_accepts_any_running_pid (procs : List ProcInfo) (db : DB)
    (dir acct : String) :
    is_instance_alive (some procs) db dir acct = true ↔
      ((∃ p, (db acct).bind AccountRow.pid = some p ∧ p ≠ 0 ∧
          ∃ q ∈ procs, q.pid = p) ∨
       iterInstanceProcs (some procs) (get_instance_path dir acct) ≠ []) := by
  unfold is_instance_alive
  cases hp : (db acct).bind AccountRow.pid with
  | none => simp [hp, List.isEmpty_iff]
  | some p =>
    simp only [hp, Bool.or_eq_true, Bool.and_eq_true, bne_iff_ne, ne_eq,
      List.any_eq_true, beq_iff_eq, Bool.not_eq_true', List.isEmpty_iff,
      Option.some.injEq]
    constructor
    · rintro (⟨hnz, q, hq, hqp⟩ | hne)
      · exact Or.inl ⟨p, rfl, hnz, q, hq, hqp⟩
      · exact Or.inr (by simpa [List.isEmpty_iff] using hne)
    · rintro (⟨p2, hp2, hnz, q, hq, hqp⟩ | hne)
      · cases hp2
        exact Or.inl ⟨hnz, q, hq, hqp⟩
      · exact Or.inr (by simpa [List.isEmpty_iff] using hne)

/-- Claim C3 counterexample: stopping account `1` (registered with pid 5)
terminates its processes and persists status `Offline`, but the pid
column still holds 5 — `update_account_status(account, "Offline", None)`
does not set the pid column to NULL. -/
theorem c3_pid_not_cleared_counterexample :
    (stop_instance true honorsTrue dbC3 procsC3 "/r" "1").db "1" =
      some ⟨"n", "Offline", some 5, "t0"⟩ ∧
    ((stop_instance true honorsTrue dbC3 procsC3 "/r" "1").db "1").bind
      AccountRow.pid ≠ none := by
  refine ⟨?_, ?_⟩ <;> decide

/-- Claim C3 (amended): with the capability present, `stop_instance`
terminates every process of the phase-2 scan, kills any survivor, and
afterwards the scan finds nothing; the account's row gets status
`Offline`, its other columns — the pid included — unchanged. -/
theorem c3_stop_terminates_scan_sets_offline (honors : Nat → Bool)
    (db : DB) (procs : List ProcInfo) (dir acct : String) (r : AccountRow)
    (h : db acct = some r) :
    (stop_instance true honors db procs dir acct).ok = true ∧
    iterInstanceProcs (some (stop_instance true honors db procs dir acct).procs)
      (get_instance_path dir acct) = [] ∧
    (stop_instance true honors db procs dir acct).db acct =
      some { r with status := "Offline" } := by
  unfold stop_instance
  simp only [if_pos rfl, iterInstanceProcs, killStep]
  refine ⟨rfl, ?_, ?_⟩
  · exact filter_not_filter _ _
  · show update_account_status db acct "Offline" none acct = _
    rw [update_account_status_self, h]
    rfl

/-- Claim C3 witness: the amended statement evaluated on the concrete
scenario of the counterexample. -/
theorem c3_stop_witness :
    (stop_instance true honorsTrue dbC3 procsC3 "/r" "1").ok = true ∧
    iterInstanceProcs (some (stop_instance true honorsTrue dbC3 procsC3 "/r" "1").procs)
      (get_instance_path "/r" "1") = [] ∧
    (stop_instance true honorsTrue dbC3 procsC3 "/r" "1").db "1" =
      some ⟨"n", "Offline", some 5, "t0"⟩ :=
  c3_stop_terminates_scan_sets_offline honorsTrue dbC3 procsC3 "/r" "1"
    ⟨"n", "Online", some 5, "t0"⟩ rfl

theorem create_instance_procs (env : Env) (st : SMState) (dir a n t : String) :
    (create_instance env st dir a n t).2.procs =
      closeAllMT5 env.avail env.honors st.procs ∨
    (create_instance env st dir a n t).2.procs =
      closeAllMT5 env.avail env.honors st.procs ++ env.spawned := by
  simp only [create_instance, launch_bat_file]
  repeat' split
  all_goals first
    | exact Or.inl rfl
    | exact Or.inr rfl

/-- Claim C4: `create_instance` first runs `_close_all_mt5_processes`,
which (capability present) terminates, then kills, every process whose
executable name is an MT5 binary name, with no regard to which
instance directory it runs under; any such pre-existing process is gone
from the table `create_instance` leaves behind (only newly spawned
processes can appear). -/
theorem c4_create_kills_all_mt5 (env : Env) (st : SMState)
    (dir a n t : String) (p : ProcInfo) (ha : env.avail = true)
    (_hp : p ∈ st.procs) (hn : lowerStr p.name ∈ closeNames) :
    p ∉ closeAllMT5 env.avail env.honors st.procs ∧
    (p ∈ (create_instance env st dir a n t).2.procs → p ∈ env.spawned) := by
  have hnot : p ∉ closeAllMT5 env.avail env.honors st.procs := by
    rw [ha]
    unfold closeAllMT5 killStep
    simp only [if_true]
    intro hmem
    have hsplit := List.mem_filter.mp hmem
    simp [hn] at hsplit
  refine ⟨hnot, ?_⟩
  intro hmem
  rcases create_instance_procs env st dir a n t with hc | hc
  · rw [hc] at hmem
    exact absurd hmem hnot
  · rw [hc] at hmem
    rcases List.mem_append.mp hmem with h1 | h2
    · exact absurd h1 hnot
    · exact h2

/-- Claim C4 witness: creating account `1001` removes the terminal
running under account `9999`'s directory. -/
theorem c4_witness :
    envC4.avail = true ∧ procC4 ∈ stC4.procs ∧
    lowerStr procC4.name ∈ closeNames ∧
    procC4 ∉ closeAllMT5 envC4.avail envC4.honors stC4.procs ∧
    (procC4 ∈ (create_instance envC4 stC4 "/r" "1001" "n" "t").2.procs →
      procC4 ∈ envC4.spawned) := by
  refine ⟨rfl, by decide, by decide, ?_, ?_⟩
  · exact (c4_create_kills_all_mt5 envC4 stC4 "/r" "1001" "n" "t" procC4
      rfl (by decide) (by decide)).1
  · exact (c4_create_kills_all_mt5 envC4 stC4 "/r" "1001" "n" "t" procC4
      rfl (by decide) (by decide)).2

/-- Claim C5 counterexample: account `9` is re-created while its
registry row still says `Online`; provisioning succeeds, the spawn
raises, `create_instance` returns success — and the persisted status is
the upsert-preserved `Online`, not `Offline`. -/
theorem c5_previous_status_counterexample :
    (create_instance envC5 stC5 "/r" "9" "n2" "t1").1 = true ∧
    ((create_instance envC5 stC5 "/r" "9" "n2" "t1").2.db "9").map
      AccountRow.status = some "Online" ∧
    ((create_instance envC5 stC5 "/r" "9" "n2" "t1").2.db "9").map
      AccountRow.status ≠ some "Offline" := by
  refine ⟨?_, ?_, ?_⟩ <;> decide

/-- Claim C5 (amended): when provisioning succeeds and the launch spawn
fails, `create_instance` still returns success and the persisted row is
exactly what the upsert left — status `Offline` with a NULL pid for an
account that was absent (or previously Offline), and the preserved
prior status otherwise. -/
theorem c5_launch_failure_keeps_upsert_row (env : Env) (st : SMState)
    (dir a n t : String) (hprog : env.programPathExists = true)
    (hrm : env.rmtreeOk = true) (hbat : env.batCreateOk = true)
    (hspawn : env.spawnOk = false) :
    (create_instance env st dir a n t).1 = true ∧
    (create_instance env st dir a n t).2.db a =
      some (match st.db a with
        | some r => { r with nickname := n }
        | none => ⟨n, "Offline", none, t⟩) := by
  simp only [create_instance, launch_bat_file, hprog, hrm, hbat, hspawn,
    not_true, and_false, if_false, if_true]
  exact ⟨trivial, upsertAccount_self st.db a n t⟩

/-- Claim C5 witness: the amended statement on the concrete scenario of
the counterexample. -/
theorem c5_witness :
    (create_instance envC5 stC5 "/r" "9" "n2" "t1").1 = true ∧
    (create_instance envC5 stC5 "/r" "9" "n2" "t1").2.db "9" =
      some ⟨"n2", "Online", none, "t0"⟩ := by
  have h := c5_launch_failure_keeps_upsert_row envC5 stC5 "/r" "9" "n2" "t1"
    rfl rfl rfl rfl
  refine ⟨h.1, ?_⟩
  rw [h.2]
  decide

/-- Claim C6 counterexample: starting account `3` through the
direct-execution fallback (no BAT file) with no matchable process
appearing: the matcher resolves nothing, yet the persisted status
becomes `Online` with the spawned launcher's own pid 77 — not
`Starting` as claimed for every launch. -/
theorem c6_fallback_counterexample :
    findMT5PidForAccount (psCap envC6.avail (stC6.procs ++ envC6.spawned))
      (get_instance_path "/r" "3") = none ∧
    (start_instance envC6 stC6 "/r" "3").1 = true ∧
    (start_instance envC6 stC6 "/r" "3").2.db "3" =
      some ⟨"n", "Online", some 77, "t0"⟩ := by
  refine ⟨?_, ?_, ?_⟩ <;> decide

/-- Claim C6 (amended): for a launch issued through the generated BAT
artifact, after the spawn and the settling wait the launch always
reports success; a resolved (nonzero) pid is recorded with status
`Online`, and an unresolved one sets status `Starting`. For the
direct-execution fallback of `start_instance`, however, an unresolved
process is recorded as `Online` with the spawned process's own pid,
still reported as success. -/
theorem c6_launch_outcomes :
    (∀ (env : Env) (db : DB) (procs : List ProcInfo) (dir a : String)
       (r : AccountRow) (p : Nat),
       env.spawnOk = true → db a = some r →
       (launch_bat_file env db procs true dir a).ok = true ∧
       (findMT5PidForAccount (psCap env.avail (procs ++ env.spawned))
           (get_instance_path dir a) = some p → p ≠ 0 →
         (launch_bat_file env db procs true dir a).db a =
           some { r with status := "Online", pid := some p }) ∧
       (findMT5PidForAccount (psCap env.avail (procs ++ env.spawned))
           (get_instance_path dir a) = none →
         (launch_bat_file env db procs true dir a).db a =
           some { r with status := "Starting" })) ∧
    (∀ (env : Env) (st : SMState) (dir a : String) (r : AccountRow),
       env.batExists = false → env.exeExists = true → env.spawnOk = true →
       is_instance_alive (psCap env.avail st.procs) st.db dir a = false →
       st.fs (get_instance_path dir a) = true →
       st.db a = some r →
       findMT5PidForAccount (psCap env.avail (st.procs ++ env.spawned))
         (get_instance_path dir a) = none →
       (start_instance env st dir a).1 = true ∧
       (start_instance env st dir a).2.db a =
         some { r with status := "Online", pid := some env.procPid }) := by
  constructor
  · intro env db procs dir a r p hspawn hdb
    refine ⟨?_, ?_, ?_⟩
    · simp only [launch_bat_file, hspawn, if_true]
      split
      · split <;> rfl
      · rfl
    · intro hfind hnz
      simp only [launch_bat_file, hspawn, if_true, hfind, if_pos hnz]
      rw [update_account_status_self, hdb]
      rfl
    · intro hfind
      simp only [launch_bat_file, hspawn, if_true, hfind]
      rw [update_account_status_self, hdb]
      rfl
  · intro env st dir a r hbatF hexe hspawn halive hfs hdb hfind
    simp only [start_instance, halive, Bool.false_eq_true, if_false,
      if_pos hfs, hbatF, hexe, hspawn, if_true, hfind]
    refine ⟨trivial, ?_⟩
    rw [update_account_status_self, hdb]
    rfl

/-- Claim C6 witness: the fallback clause of the amended statement on
the concrete scenario of the counterexample. -/
theorem c6_witness :
    (start_instance envC6 stC6 "/r" "3").1 = true ∧
    (start_instance envC6 stC6 "/r" "3").2.db "3" =
      some ⟨"n", "Online", some 77, "t0"⟩ := by
  have h := c6_launch_outcomes.2 envC6 stC6 "/r" "3" ⟨"n", "Offline", none, "t0"⟩
    rfl rfl rfl (by decide) (by decide) (by decide) (by decide)
  refine ⟨h.1, ?_⟩
  rw [h.2]
  decide

theorem monitorCycleAux_error (aliveE : String → Except String Bool)
    (pre : List (String × String)) :
    ∀ (post : List (String × String)) (a old e : String) (db : DB),
    (∀ x ∈ pre, ∃ b, aliveE x.1 = Except.ok b) →
    aliveE a = Except.error e →
    (monitorCycleAux aliveE (pre ++ (a, old) :: post) db).1 =
      (monitorCycleAux aliveE pre db).1 := by
  induction pre with
  | nil =>
    intro post a old e db hpre ha
    simp [monitorCycleAux, ha]
  | cons x t ih =>
    intro post a old e db hpre ha
    obtain ⟨ax, ox⟩ := x
    obtain ⟨b, hb⟩ := hpre (ax, ox) (List.mem_cons_self _ _)
    simp only [List.cons_append, monitorCycleAux, hb]
    exact ih post a old e _ (fun y hy => hpre y (List.mem_cons_of_mem _ hy)) ha

/-- Claim C7 counterexample: account `A`'s check raises while `B` has
gone offline (`aliveC7 "B" = ok false`); after the cycle, `B`'s
persisted status is still `Online` — the single try/except around the
whole loop aborted the remaining accounts of the cycle. -/
theorem c7_cycle_abort_counterexample :
    aliveC7 "B" = Except.ok false ∧
    monitor_body aliveC7 [("A", "Online"), ("B", "Online")] dbC7 "B" =
      some ⟨"nb", "Online", none, "t0"⟩ := by
  refine ⟨rfl, ?_⟩
  decide

/-- Claim C7 (amended): an exception during one account's check is
caught at cycle granularity — the cycle returns normally (so the
`while True` loop proceeds to its next iteration and never dies), the
accounts before the failing one keep their committed updates, but the
failing account and every account after it in that cycle are skipped:
the cycle's result is exactly that of the truncated snapshot. -/
theorem c7_monitor_catches_but_skips_rest
    (aliveE : String → Except String Bool)
    (pre post : List (String × String)) (a old e : String) (db : DB)
    (hpre : ∀ x ∈ pre, ∃ b, aliveE x.1 = Except.ok b)
    (ha : aliveE a = Except.error e) :
    monitor_body aliveE (pre ++ (a, old) :: post) db =
      monitor_body aliveE pre db := by
  unfold monitor_body
  exact monitorCycleAux_error aliveE pre post a old e db hpre ha

/-- Claim C7 witness: the amended statement on the concrete scenario of
the counterexample. -/
theorem c7_witness :
    aliveC7 "A" = Except.error "boom" ∧
    monitor_body aliveC7 ([] ++ ("A", "Online") :: [("B", "Online")]) dbC7 =
      monitor_body aliveC7 [] dbC7 :=
  ⟨rfl, c7_monitor_catches_but_skips_rest aliveC7 [] [("B", "Online")] "A"
    "Online" "boom" dbC7 (by simp) rfl⟩

theorem create_instance_fst_db_irrelevant (env : Env) (db1 db2 : DB)
    (procs : List ProcInfo) (fs : FS) (dir a n t : String) :
    (create_instance env ⟨db1, procs, fs⟩ dir a n t).1 =
      (create_instance env ⟨db2, procs, fs⟩ dir a n t).1 := by
  simp only [create_instance, launch_bat_file]
  split_ifs <;> rfl

theorem create_instance_db_cases (env : Env) (st : SMState)
    (dir a n t : String) :
    (create_instance env st dir a n t).2.db = st.db ∨
    (∃ s pid, (create_instance env st dir a n t).2.db =
       update_account_status (upsertAccount st.db a n t) a s pid) ∨
    (create_instance env st dir a n t).2.db = upsertAccount st.db a n t := by
  simp only [create_instance, launch_bat_file]
  repeat' split
  all_goals first
    | exact Or.inl rfl
    | exact Or.inr (Or.inr rfl)
    | exact Or.inr (Or.inl ⟨_, _, rfl⟩)

/-- Claim C8 counterexample: re-creating registered account `5`
(status `Offline`, pid NULL) succeeds, but the auto-launch at the end of
`create_instance` resolves pid 7 and persists status `Online` with that
pid — the pre-existing status and pid are not preserved (only
`created` and the nickname behave as claimed). -/
theorem c8_autolaunch_overwrites_counterexample :
    stC8.db "5" = some ⟨"old", "Offline", none, "t0"⟩ ∧
    (create_instance envC8 stC8 "/r" "5" "new" "t1").1 = true ∧
    (create_instance envC8 stC8 "/r" "5" "new" "t1").2.db "5" =
      some ⟨"new", "Online", some 7, "t0"⟩ ∧
    (create_instance envC8 stC8 "/r" "5" "new" "t1").2.db "5" ≠
      some ⟨"new", "Offline", none, "t0"⟩ := by
  refine ⟨?_, ?_, ?_, ?_⟩ <;> decide

/-- Claim C8 (amended): for an already registered account, the registry
upsert inside `create_instance` preserves status, pid and `created` and
replaces only the nickname; whether `create_instance` succeeds does not
depend on the registry contents at all (so it never fails merely because
the row exists); and the `created` timestamp survives the whole call.
The subsequent auto-launch, however, may overwrite status and pid. -/
theorem c8_recreate_effects (env : Env) (st : SMState) (db2 : DB)
    (dir a n t : String) (r : AccountRow) (h : st.db a = some r) :
    upsertAccount st.db a n t a = some { r with nickname := n } ∧
    (create_instance env st dir a n t).1 =
      (create_instance env ⟨db2, st.procs, st.fs⟩ dir a n t).1 ∧
    ∃ rr, (create_instance env st dir a n t).2.db a = some rr ∧
      rr.created = r.created := by
  refine ⟨?_, ?_, ?_⟩
  · rw [upsertAccount_self, h]
  · exact create_instance_fst_db_irrelevant env st.db db2 st.procs st.fs dir a n t
  · rcases create_instance_db_cases env st dir a n t with hc | ⟨s, pid, hc⟩ | hc
    · exact ⟨r, by rw [hc, h], rfl⟩
    · refine ⟨applyStatus { r with nickname := n } s pid, ?_,
        applyStatus_created _ _ _⟩
      rw [hc, update_account_status_self, upsertAccount_self, h]
      rfl
    · exact ⟨{ r with nickname := n },
        by rw [hc, upsertAccount_self, h], rfl⟩

/-- Claim C8 witness: the amended statement on the concrete scenario of
the counterexample. -/
theorem c8_witness :
    upsertAccount stC8.db "5" "new" "t1" "5" =
      some ⟨"new", "Offline", none, "t0"⟩ ∧
    (create_instance envC8 stC8 "/r" "5" "new" "t1").1 =
      (create_instance envC8 ⟨fun _ => none, stC8.procs, stC8.fs⟩
        "/r" "5" "new" "t1").1 ∧
    ∃ rr, (create_instance envC8 stC8 "/r" "5" "new" "t1").2.db "5" =
      some rr ∧ rr.created = "t0" := by
  have h := c8_recreate_effects envC8 stC8 (fun _ => none) "/r" "5" "new" "t1"
    ⟨"old", "Offline", none, "t0"⟩ (by decide)
  exact ⟨by rw [h.1], h.2.1, h.2.2⟩

theorem required_mem_portable (inst d : String)
    (h : d ∈ requiredDataDirs inst) : d ∈ portableDirs inst := by
  simp only [requiredDataDirs, List.mem_cons, List.not_mem_nil, or_false] at h
  rcases h with rfl | rfl | rfl | rfl
  all_goals simp [portableDirs, joinPath]

/-- Claim C9: whenever `create_instance` returns success — the template
being optional — the portable skeleton is on disk: the configuration,
profiles, MQL5 file-exchange and logs subdirectories of the instance's
`Data` tree all exist; and synthesizing the skeleton over a filesystem
that already has it is a no-op (`makedirs` with `exist_ok` is
idempotent). -/
theorem c9_portable_structure :
    (∀ (env : Env) (st : SMState) (dir a n t d : String),
       (create_instance env st dir a n t).1 = true →
       d ∈ requiredDataDirs (get_instance_path dir a) →
       (create_instance env st dir a n t).2.fs d = true) ∧
    (∀ (fs : FS) (p : String),
       createPortableDataStructure (createPortableDataStructure fs p) p =
         createPortableDataStructure fs p) := by
  constructor
  · intro env st dir a n t d hsucc hd
    have hdp := required_mem_portable (get_instance_path dir a) d hd
    simp only [create_instance] at hsucc ⊢
    by_cases h1 : env.programPathExists = true
    · rw [if_pos h1] at hsucc ⊢
      by_cases h2 : (st.fs (get_instance_path dir a) = true ∧
        ¬env.rmtreeOk = true)
      · rw [if_pos h2] at hsucc
        exact absurd hsucc Bool.false_ne_true
      · rw [if_neg h2] at hsucc ⊢
        by_cases h3 : env.batCreateOk = true
        · rw [if_pos h3] at hsucc ⊢
          exact mem_foldl_makedirs _ _ _ hdp
        · rw [if_neg h3] at hsucc
          exact absurd hsucc Bool.false_ne_true
    · rw [if_neg h1] at hsucc
      exact absurd hsucc Bool.false_ne_true
  · intro fs p
    simp only [createPortableDataStructure]
    funext x
    rw [foldl_makedirs_apply, foldl_makedirs_apply, ← Bool.or_assoc,
      Bool.or_self]

/-- Claim C9 witness: creating account `9` with no template yields the
file-exchange directory `/r/9/Data/MQL5/Files`. -/
theorem c9_witness :
    (create_instance envC9 stC9 "/r" "9" "n" "t").1 = true ∧
    joinPath (joinPath (joinPath (get_instance_path "/r" "9") "Data") "MQL5")
      "Files" ∈ requiredDataDirs (get_instance_path "/r" "9") ∧
    (create_instance envC9 stC9 "/r" "9" "n" "t").2.fs
      (joinPath (joinPath (joinPath (get_instance_path "/r" "9") "Data")
        "MQL5") "Files") = true := by
  refine ⟨by decide, by decide, ?_⟩
  exact c9_portable_structure.1 envC9 stC9 "/r" "9" "n" "t" _ (by decide)
    (by decide)
